import Mathlib

/-!
# fullstack-phone: the libphonenumber adapter (`src/libphonenumber.js`)

A shallow embedding of the adapter module.  The Google libphonenumber classes the
module calls (`PhoneNumberUtil`, `PhoneNumber`, `AsYouTypeFormatter`) and the
JavaScript built-ins (`Number`, `toString`) are not code of this repository: they are
parameters of the embedding.  `console.log` calls have no effect on any value the
module returns or stores and are left out.

A JavaScript string is a Lean `String`; one `Char` stands for one UTF-16 code unit.
-/

namespace FullstackPhone

/-! ## JavaScript values -/

/-- A JavaScript number.  The module never computes with numbers: it tests them with
`isNaN` and hands them to the library, so only the NaN/non-NaN split is observable. -/
inductive JSNumber
  | nan
  | infinity (negative : Bool)
  | finite (value : ℚ)
  deriving DecidableEq

/-- The global `isNaN`, on a value that already is a number. -/
def JSNumber.isNaN : JSNumber → Bool
  | .nan => true
  | _ => false

/-- A JavaScript value, as far as the module tells values apart: `=== undefined`,
`typeof v === 'string'`, `typeof v === 'number'`, and truthiness.  `object ref` is a
non-primitive value other than a `Number` or `String` wrapper object: an object literal,
an array, a function. -/
inductive JSVal
  | undefined
  | null
  | bool (b : Bool)
  | number (n : JSNumber)
  | string (s : String)
  | object (ref : Nat)
  deriving DecidableEq

/-- The JavaScript built-ins the module calls. -/
structure Runtime where
  /-- The call `Number(s)` on a string `s`. -/
  Number : String → JSNumber
  /-- The call `n.toString()` on a number `n`. -/
  numberToString : JSNumber → String

/-- The method `s.charAt(i)`: the one-character string at index `i`, or the empty string
when `i` is out of range. -/
def charAt (s : String) (i : Nat) : String :=
  match s.toList.get? i with
  | some c => String.singleton c
  | none => ""

/-- A thrown JavaScript exception: `new Error(message)`, the `TypeError` of a member
access on `undefined`, or the `AssertionError` of a failed library assertion. -/
inductive Thrown
  | error (message : String)
  | typeError
  | assertionError
  deriving DecidableEq

/-! ## The external library -/

/-- The class `i18n.phonenumbers.PhoneNumber`: a protocol-buffer record whose fields are
unset after `new` and hold the value a setter stored. -/
structure PhoneNumber where
  countryCode : Option JSVal
  nationalNumber : Option JSVal
  extension : Option JSVal
  italianLeadingZero : Option Bool
  deriving DecidableEq

/-- The constructor call `new i18n.phonenumbers.PhoneNumber()`. -/
def PhoneNumber.new : PhoneNumber :=
  { countryCode := none, nationalNumber := none, extension := none, italianLeadingZero := none }

/-- The setter `setCountryCode` of the number field `country_code`.  A protocol-buffer
setter stores a value of the field's native type; for a value of another type it throws
an AssertionError when the library runs with assertions enabled (`asserts`), and stores
the value as it is when they are disabled. -/
def PhoneNumber.setCountryCode (asserts : Bool) (p : PhoneNumber) (v : JSVal) :
    Except Thrown PhoneNumber :=
  match v with
  | JSVal.number _ => pure { p with countryCode := some v }
  | _ =>
    if asserts then throw Thrown.assertionError
    else pure { p with countryCode := some v }

/-- The setter `setNationalNumber` of the number field `national_number`, with the same
type check as `setCountryCode`. -/
def PhoneNumber.setNationalNumber (asserts : Bool) (p : PhoneNumber) (v : JSVal) :
    Except Thrown PhoneNumber :=
  match v with
  | JSVal.number _ => pure { p with nationalNumber := some v }
  | _ =>
    if asserts then throw Thrown.assertionError
    else pure { p with nationalNumber := some v }

/-- The setter `setExtension` of the string field `extension`, with the same type check
as `setCountryCode`. -/
def PhoneNumber.setExtension (asserts : Bool) (p : PhoneNumber) (v : JSVal) :
    Except Thrown PhoneNumber :=
  match v with
  | JSVal.string _ => pure { p with extension := some v }
  | _ =>
    if asserts then throw Thrown.assertionError
    else pure { p with extension := some v }

/-- The setter `setItalianLeadingZero` of the boolean field `italian_leading_zero`; the
module only hands it booleans. -/
def PhoneNumber.setItalianLeadingZero (p : PhoneNumber) (b : Bool) : PhoneNumber :=
  { p with italianLeadingZero := some b }

/-- The enumeration `i18n.phonenumbers.PhoneNumberFormat`. -/
inductive PhoneNumberFormat
  | E164
  | INTERNATIONAL
  | NATIONAL
  | RFC3966
  deriving DecidableEq

/-- The enumeration `i18n.phonenumbers.PhoneNumberUtil.ValidationResult`. -/
inductive ValidationResult
  | IS_POSSIBLE
  | INVALID_COUNTRY_CODE
  | TOO_SHORT
  | TOO_LONG
  deriving DecidableEq

/-- The library as the module uses it: whether it runs with assertions enabled
(`goog.asserts.ENABLE_ASSERTS`), and the methods of the `PhoneNumberUtil` singleton the
module calls. -/
structure PhoneNumberUtil where
  enableAsserts : Bool
  format : PhoneNumber → PhoneNumberFormat → String
  isValidNumber : PhoneNumber → Bool
  isValidNumberForRegion : PhoneNumber → String → Bool
  isPossibleNumberWithReason : PhoneNumber → ValidationResult
  isLeadingZeroPossible : JSVal → Bool

/-! ## Module constants (lines 15-36) -/

namespace styles
def E164 : String := "e164"
def INTERNATIONAL : String := "international"
def NATIONAL : String := "national"
def RFC3966 : String := "rfc3966"
end styles

namespace errors
def FORMAT_INVALID : String := "PHN_FORMAT_INVALID"
def INVALID_COUNTRY_CODE : String := "PHN_COUNTRY_CODE_INVALID"
def INVALID_FOR_REGION : String := "PHN_INVALID_FOR_REGION"
def INVALID_STYLE : String := "PHN_OPTIONS_INVALID"
def MISSING_COUNTRY_CODE : String := "PHN_COUNTRY_MISSING"
def MISSING_NATIONAL_NUMBER : String := "PHN_NUMBER_EMPTY"
def NOT_A_NUMBER : String := "PHN_NOT_A_NUMBER"
def NOT_A_STRING : String := "PHN_EXTENSION_NOT_A_STRING"
def PARSE_ERROR : String := "PHN_PARSE_ERROR"
def TOO_SHORT_AFTER_IDD : String := "PHN_NUMBER_TOO_SHORT_AFTER_IDD"
def TOO_SHORT_NSN : String := "PHN_NUMBER_TOO_SHORT"
def TOO_LONG : String := "PHN_NUMBER_TOO_LONG"
def TOO_SHORT : String := "PHN_NUMBER_TOO_SHORT"
def UNKNOWN_REGION : String := "PHN_UNKNOWN_REGION"
end errors

/-! ## Phone adapter functions (lines 119-249) -/

/-- The `canonicalPhone` argument: an object read through its three properties
`countryCode`, `nationalNumber` and `extension`; a missing property reads `undefined`. -/
structure CanonicalPhone where
  countryCode : JSVal
  nationalNumber : JSVal
  extension : JSVal
  deriving DecidableEq

/-- The `options` argument object, read through its `style` property. -/
structure Options where
  style : JSVal
  deriving DecidableEq

/-- The function `getPBPhoneFromJSONPhone` (lines 202-249). -/
def getPBPhoneFromJSONPhone (js : Runtime) (phoneUtil : PhoneNumberUtil)
    (canonicalPhone : CanonicalPhone) : Except Thrown PhoneNumber := do
  let mut phoneNumber := PhoneNumber.new
  let mut countryCode := canonicalPhone.countryCode
  let mut nationalNumber := canonicalPhone.nationalNumber
  let extension := canonicalPhone.extension
  -- check well-formedness of countryCode
  if countryCode = JSVal.undefined then
    throw (Thrown.error errors.MISSING_COUNTRY_CODE)
  else
    -- typeof countryCode === 'string'
    if let JSVal.string s := countryCode then
      if (js.Number s).isNaN then
        throw (Thrown.error errors.INVALID_COUNTRY_CODE)
      countryCode := JSVal.number (js.Number s)
    phoneNumber ← phoneNumber.setCountryCode phoneUtil.enableAsserts countryCode
  -- check well-formedness of nationalNumber
  if nationalNumber = JSVal.undefined then
    throw (Thrown.error errors.MISSING_NATIONAL_NUMBER)
  else
    -- typeof nationalNumber === 'string'
    if let JSVal.string s := nationalNumber then
      if (js.Number s).isNaN then
        throw (Thrown.error errors.FORMAT_INVALID)
      phoneNumber := phoneNumber.setItalianLeadingZero
        (charAt s 0 == "0" && phoneUtil.isLeadingZeroPossible countryCode)
      nationalNumber := JSVal.number (js.Number s)
    phoneNumber ← phoneNumber.setNationalNumber phoneUtil.enableAsserts nationalNumber
  -- extension should be a string, if it is a number, convert to string
  if extension ≠ JSVal.undefined then
    -- typeof extension === 'number'
    if let JSVal.number n := extension then
      phoneNumber ← phoneNumber.setExtension phoneUtil.enableAsserts
        (JSVal.string (js.numberToString n))
    else
      phoneNumber ← phoneNumber.setExtension phoneUtil.enableAsserts extension
  return phoneNumber

/-- The function `formatPhoneNumber` (lines 125-152).  `options` is `none` when the
argument is absent or falsy, so that the `options ||` default, the empty object, is used, whose
`style` reads `undefined`. -/
def formatPhoneNumber (js : Runtime) (phoneUtil : PhoneNumberUtil)
    (canonicalPhone : CanonicalPhone) (options : Option Options) : Except Thrown String := do
  let phoneNumber ← getPBPhoneFromJSONPhone js phoneUtil canonicalPhone
  let style : JSVal := match options with
    | some o => o.style
    | none => JSVal.undefined
  let formatType ←
    if style = JSVal.string styles.NATIONAL then pure PhoneNumberFormat.NATIONAL
    else if style = JSVal.string styles.INTERNATIONAL then pure PhoneNumberFormat.INTERNATIONAL
    else if style = JSVal.string styles.E164 then pure PhoneNumberFormat.E164
    else if style = JSVal.string styles.RFC3966 then pure PhoneNumberFormat.RFC3966
    else throw (Thrown.error errors.INVALID_STYLE)
  return phoneUtil.format phoneNumber formatType

/-- What `validatePhoneNumber` hands back with `return`: a boolean or an `Error` object. -/
inductive Returned
  | bool (b : Bool)
  | error (message : String)
  deriving DecidableEq

/-- The function `validatePhoneNumber` (lines 160-189).  `region` is `none` when the
argument is absent; a string is truthy when it is not empty. -/
def validatePhoneNumber (js : Runtime) (phoneUtil : PhoneNumberUtil)
    (canonicalPhone : CanonicalPhone) (region : Option String) : Except Thrown Returned := do
  let phoneNumber ← getPBPhoneFromJSONPhone js phoneUtil canonicalPhone
  let mut validFlag := false
  let mut errorCode := errors.PARSE_ERROR
  match region with
  | some r =>
    if r ≠ "" then
      validFlag := phoneUtil.isValidNumberForRegion phoneNumber r
      errorCode := errors.INVALID_FOR_REGION
    else
      validFlag := phoneUtil.isValidNumber phoneNumber
  | none =>
    validFlag := phoneUtil.isValidNumber phoneNumber
  if validFlag then
    return Returned.bool true
  -- Attempt to get the cause of the error
  let reason := phoneUtil.isPossibleNumberWithReason phoneNumber
  if reason = ValidationResult.TOO_SHORT then
    errorCode := errors.TOO_SHORT
  else if reason = ValidationResult.TOO_LONG then
    errorCode := errors.TOO_LONG
  -- Some other error
  return Returned.error errorCode

/-! ## The as-you-type formatters (lines 8-13 and 51-96) -/

/-- The class `i18n.phonenumbers.AsYouTypeFormatter` as a state machine: the state of a
formatter object, the state `new AsYouTypeFormatter(regionCode)` starts in, and what
`clear()` and `inputDigit(digit)` do to the state; `inputDigit` also returns a string. -/
structure AsYouTypeFormatter where
  State : Type
  construct : String → State
  clear : State → State
  inputDigit : State → String → State × String

/-- The module variables `allRegionCodes`, `regionCode`, `formatter` and
`statelessFormatter`; `none` is a variable that is still `undefined`. -/
structure Module (F : AsYouTypeFormatter) where
  allRegionCodes : Option (List String)
  regionCode : Option String
  formatter : Option F.State
  statelessFormatter : Option F.State

/-- The function `setRegion` (lines 52-63). -/
def setRegion (F : AsYouTypeFormatter) (m : Module F) (regionCodeParam : String) :
    Except Thrown (Module F) :=
  match m.allRegionCodes with
  | none => throw Thrown.typeError
  | some codes =>
    if codes.indexOf? regionCodeParam = none then
      throw (Thrown.error ("Unsupported region: " ++ regionCodeParam))
    else
      pure { m with
        regionCode := some regionCodeParam,
        formatter := some (F.construct regionCodeParam),
        statelessFormatter := some (F.construct regionCodeParam) }

namespace asYouType

/-- The function `asYouType.clear` (lines 67-70). -/
def clear (F : AsYouTypeFormatter) (m : Module F) : Except Thrown (Module F) :=
  match m.formatter with
  | none => throw Thrown.typeError
  | some st => pure { m with formatter := some (F.clear st) }

/-- The function `asYouType.inputDigit` (lines 72-75): the returned string and the module
state after the call. -/
def inputDigit (F : AsYouTypeFormatter) (m : Module F) (digit : String) :
    Except Thrown (String × Module F) :=
  match m.formatter with
  | none => throw Thrown.typeError
  | some st =>
    pure ((F.inputDigit st digit).2, { m with formatter := some (F.inputDigit st digit).1 })

end asYouType

/-- The function `formatAsTyped` (lines 80-96): the returned value (`none` is `undefined`)
and the module state after the call.  The `for` loop runs `i` over
`0, ..., phoneNumber.length - 1`, carrying the formatter state and `output`. -/
def formatAsTyped (F : AsYouTypeFormatter) (m : Module F) (phoneNumber : JSVal) :
    Except Thrown (Option String × Module F) :=
  match m.statelessFormatter with
  | none => throw Thrown.typeError
  | some st0 =>
    let cleared := F.clear st0
    let start : F.State × Option String := (cleared, none)
    let final : F.State × Option String :=
      match phoneNumber with
      | JSVal.string s =>
        -- phoneNumber && typeof phoneNumber === 'string'
        if s ≠ "" then
          (List.range s.length).foldl
            (fun acc i =>
              ((F.inputDigit acc.1 (charAt s i)).1, some (F.inputDigit acc.1 (charAt s i)).2))
            start
        else start
      | _ => start
    pure (final.2, { m with statelessFormatter := some final.1 })

/-! ## Statements about the formatters -/

/-- A call of one of the exported functions that touch the formatters. -/
inductive Call
  | setRegion (regionCodeParam : String)
  | clear
  | inputDigit (digit : String)
  | formatAsTyped (phoneNumber : JSVal)

/-- The module state after a call; a call that throws leaves the module variables as
they were. -/
def Call.apply (F : AsYouTypeFormatter) (m : Module F) : Call → Module F
  | Call.setRegion r =>
    match FullstackPhone.setRegion F m r with
    | .ok m1 => m1
    | .error _ => m
  | Call.clear =>
    match asYouType.clear F m with
    | .ok m1 => m1
    | .error _ => m
  | Call.inputDigit d =>
    match asYouType.inputDigit F m d with
    | .ok r => r.2
    | .error _ => m
  | Call.formatAsTyped v =>
    match FullstackPhone.formatAsTyped F m v with
    | .ok r => r.2
    | .error _ => m

/-- The module state after a sequence of calls. -/
def runCalls (F : AsYouTypeFormatter) (m : Module F) (calls : List Call) : Module F :=
  calls.foldl (Call.apply F) m

/-- Feeding characters to `asYouType.inputDigit` one at a time, in order: the string the
last call returned (`last` when there was no call) and the module state at the end. -/
def feedDigits (F : AsYouTypeFormatter) :
    Module F → List Char → Option String → Except Thrown (Option String × Module F)
  | m, [], last => pure (last, m)
  | m, c :: cs, _ =>
    match asYouType.inputDigit F m (String.singleton c) with
    | .error e => throw e
    | .ok r => feedDigits F r.2 cs (some r.1)

/-- The incremental protocol: `asYouType.clear()`, then the characters of `s` fed to
`asYouType.inputDigit` one at a time. -/
def typeIncrementally (F : AsYouTypeFormatter) (m : Module F) (s : String) :
    Except Thrown (Option String × Module F) :=
  match asYouType.clear F m with
  | .error e => throw e
  | .ok m1 => feedDigits F m1 s.toList none

/-- The formatter states an object constructed for region `r` can be in: the fresh state,
and any state `clear()` or `inputDigit(d)` leads to from such a state. -/
inductive Reach (F : AsYouTypeFormatter) (r : String) : F.State → Prop
  | fresh : Reach F r (F.construct r)
  | clear {st : F.State} : Reach F r st → Reach F r (F.clear st)
  | inputDigit {st : F.State} (d : String) : Reach F r st → Reach F r (F.inputDigit st d).1

/-- The assumption on the external formatter: `clear()` restores the
freshly-constructed state for the formatter's region. -/
def ClearRestores (F : AsYouTypeFormatter) : Prop :=
  ∀ (r : String) (st : F.State), Reach F r st → F.clear st = F.construct r

/-- One keystroke on a formatter object: its state after `inputDigit(c)`, and the string
that call returned. -/
def keystroke (F : AsYouTypeFormatter) (acc : F.State × Option String) (c : Char) :
    F.State × Option String :=
  ((F.inputDigit acc.1 (String.singleton c)).1,
    some (F.inputDigit acc.1 (String.singleton c)).2)

/-- The formatter state and the last returned string after `clear()` and one keystroke per
character of a string argument; any other argument gets no keystroke. -/
def replay (F : AsYouTypeFormatter) (st0 : F.State) : JSVal → F.State × Option String
  | JSVal.string s => s.toList.foldl (keystroke F) (F.clear st0, none)
  | _ => (F.clear st0, none)

/-- Both formatter objects exist and are in states a formatter constructed for one region
can be in. -/
def Ready (F : AsYouTypeFormatter) (m : Module F) : Prop :=
  ∃ (r : String) (st1 st2 : F.State), m.formatter = some st1 ∧
    m.statelessFormatter = some st2 ∧ Reach F r st1 ∧ Reach F r st2

/-- A formatter for concrete runs: the state is the region and the characters typed so
far, `inputDigit` returns the region, a colon and the characters typed so far. -/
def sampleFormatter : AsYouTypeFormatter :=
  { State := String × String,
    construct := fun r => (r, ""),
    clear := fun st => (st.1, ""),
    inputDigit := fun st d => ((st.1, st.2 ++ d), st.1 ++ ":" ++ st.2 ++ d) }

/-- The module variables right after `allRegionCodes` is assigned and before the first
`setRegion`. -/
def sampleModule : Module sampleFormatter :=
  { allRegionCodes := some ["US", "GB"], regionCode := none, formatter := none,
    statelessFormatter := none }

/-- The module variables after `setRegion('US')` on `sampleModule`. -/
def sampleModuleUS : Module sampleFormatter :=
  { allRegionCodes := some ["US", "GB"], regionCode := some "US", formatter := some ("US", ""),
    statelessFormatter := some ("US", "") }

/-- A history of calls: two digits typed into the stateful formatter and one stateless
replay. -/
def sampleCalls : List Call :=
  [Call.inputDigit "4", Call.formatAsTyped (JSVal.string "650"), Call.inputDigit "1"]

/-! ## Statements about the adapter functions -/

/-- The value handed to `setCountryCode`: a string is replaced by `Number(string)`,
any other value is passed on as it is. -/
def numericCountryCode (js : Runtime) : JSVal → JSVal
  | JSVal.string s => JSVal.number (js.Number s)
  | v => v

/-- The validity the library reports: for the region when a non-empty region is given,
in general otherwise. -/
def libraryValid (phoneUtil : PhoneNumberUtil) (phoneNumber : PhoneNumber) :
    Option String → Bool
  | some r => if r ≠ "" then phoneUtil.isValidNumberForRegion phoneNumber r
              else phoneUtil.isValidNumber phoneNumber
  | none => phoneUtil.isValidNumber phoneNumber

/-- A string that `Number` turns into NaN. -/
def isNonNumericString (js : Runtime) : JSVal → Bool
  | JSVal.string s => (js.Number s).isNaN
  | _ => false

/-- One of the four values of the `styles` table. -/
def isStyleValue (v : JSVal) : Bool :=
  v = JSVal.string styles.NATIONAL ∨ v = JSVal.string styles.INTERNATIONAL ∨
    v = JSVal.string styles.E164 ∨ v = JSVal.string styles.RFC3966

/-- A number or a string: the values of `countryCode` and `nationalNumber` that reach
the library setter as a number. -/
def isNumberOrString : JSVal → Bool
  | JSVal.number _ => true
  | JSVal.string _ => true
  | _ => false

/-- Absent, a number or a string: the values of `extension` that are skipped or reach the
library setter as a string. -/
def isExtensionValue : JSVal → Bool
  | JSVal.undefined => true
  | JSVal.number _ => true
  | JSVal.string _ => true
  | _ => false

/-- The precedence of input failures as the specification words it: the first applicable
code, or `none` when no failure applies. -/
def claimedFormatFailure (js : Runtime) (canonicalPhone : CanonicalPhone)
    (options : Option Options) : Option String :=
  if canonicalPhone.countryCode = JSVal.undefined then some "PHN_COUNTRY_MISSING"
  else if isNonNumericString js canonicalPhone.countryCode then some "PHN_COUNTRY_CODE_INVALID"
  else if canonicalPhone.nationalNumber = JSVal.undefined then some "PHN_NUMBER_EMPTY"
  else if isNonNumericString js canonicalPhone.nationalNumber then some "PHN_FORMAT_INVALID"
  else match options with
    | none => some "PHN_OPTIONS_INVALID"
    | some o => if isStyleValue o.style then none else some "PHN_OPTIONS_INVALID"

/-- What the amended statement says of a call: it throws `t`, it returns a string, or
nothing is said. -/
inductive Outcome
  | fails (t : Thrown)
  | succeeds
  | unstated
  deriving DecidableEq

/-- The precedence of failures as amended: the five input failures of the specification,
and, when the library runs with assertions enabled (`asserts`), the AssertionError of a
setter that is handed a value of another type than its field, each at its place in the
order of the checks.  When no failure applies the call succeeds; nothing is said of a
call with no failure whose `countryCode` or `nationalNumber` is the number NaN, or in
which a library without assertions stored a value of another type than the field. -/
def amendedFormatOutcome (asserts : Bool) (js : Runtime) (canonicalPhone : CanonicalPhone)
    (options : Option Options) : Outcome :=
  if canonicalPhone.countryCode = JSVal.undefined then
    Outcome.fails (Thrown.error "PHN_COUNTRY_MISSING")
  else if isNonNumericString js canonicalPhone.countryCode then
    Outcome.fails (Thrown.error "PHN_COUNTRY_CODE_INVALID")
  else if asserts = true ∧ isNumberOrString canonicalPhone.countryCode = false then
    Outcome.fails Thrown.assertionError
  else if canonicalPhone.nationalNumber = JSVal.undefined then
    Outcome.fails (Thrown.error "PHN_NUMBER_EMPTY")
  else if isNonNumericString js canonicalPhone.nationalNumber then
    Outcome.fails (Thrown.error "PHN_FORMAT_INVALID")
  else if asserts = true ∧ isNumberOrString canonicalPhone.nationalNumber = false then
    Outcome.fails Thrown.assertionError
  else if asserts = true ∧ isExtensionValue canonicalPhone.extension = false then
    Outcome.fails Thrown.assertionError
  else if (options.elim false fun o => isStyleValue o.style) = false then
    Outcome.fails (Thrown.error "PHN_OPTIONS_INVALID")
  else if canonicalPhone.countryCode = JSVal.number JSNumber.nan ∨
      canonicalPhone.nationalNumber = JSVal.number JSNumber.nan then
    Outcome.unstated
  else if isNumberOrString canonicalPhone.countryCode = false ∨
      isNumberOrString canonicalPhone.nationalNumber = false ∨
      isExtensionValue canonicalPhone.extension = false then
    Outcome.unstated
  else Outcome.succeeds

/-- The record with `countryCode: null` and `nationalNumber: 1`. -/
def nullCountryPhone : CanonicalPhone :=
  { countryCode := JSVal.null, nationalNumber := JSVal.number (JSNumber.finite 1),
    extension := JSVal.undefined }

/-- A runtime for concrete runs: `Number` reads a run of decimal digits (the empty
string is 0) and is NaN on anything else. -/
def sampleRuntime : Runtime :=
  { Number := fun s =>
      if s.toList.all Char.isDigit then
        JSNumber.finite (s.toList.foldl (fun n c => 10 * n + (c.toNat - 48)) 0 : Nat)
      else JSNumber.nan,
    numberToString := fun _ => "" }

/-- A library for concrete runs: assertions are enabled, every number with a national
number set is valid, a leading zero is possible for country code 39 only. -/
def sampleUtil : PhoneNumberUtil :=
  { enableAsserts := true,
    format := fun _ f => match f with
      | PhoneNumberFormat.E164 => "+39061234"
      | PhoneNumberFormat.INTERNATIONAL => "+39 06 1234"
      | PhoneNumberFormat.NATIONAL => "06 1234"
      | PhoneNumberFormat.RFC3966 => "tel:+39-06-1234",
    isValidNumber := fun p => p.nationalNumber.isSome,
    isValidNumberForRegion := fun p r => p.nationalNumber.isSome && r == "IT",
    isPossibleNumberWithReason := fun _ => ValidationResult.TOO_SHORT,
    isLeadingZeroPossible := fun v => v == JSVal.number (JSNumber.finite 39) }

/-- The record with `countryCode: '39'` and `nationalNumber: '061234'`. -/
def samplePhone : CanonicalPhone :=
  { countryCode := JSVal.string "39", nationalNumber := JSVal.string "061234",
    extension := JSVal.undefined }

/-- The record the conversion builds from `samplePhone` under `sampleRuntime` and
`sampleUtil`. -/
def samplePB : PhoneNumber :=
  { countryCode := some (JSVal.number (JSNumber.finite 39)),
    nationalNumber := some (JSVal.number (JSNumber.finite 61234)),
    extension := none, italianLeadingZero := some true }

/-! ## Proofs: the adapter functions -/

theorem charAt_zero_eq (s : String) :
    (charAt s 0 == "0") = decide (s.toList.head? = some '0') := by
  rcases s with ⟨l⟩
  cases l with
  | nil => simp [charAt]
  | cons c cs =>
    simp only [charAt, String.toList, List.get?, String.singleton, List.head?]
    have h1 : ("".push c) = String.mk [c] := rfl
    have h2 : "0" = String.mk ['0'] := rfl
    rw [h1]
    by_cases h : c = '0'
    · subst h; simp
    · have hne : String.mk [c] ≠ "0" := by
        rw [h2]
        intro hc
        injection hc with hc
        injection hc with hc
        exact h hc
      simp [h, hne]

/-- The conversion in closed form: the throwing checks and the setters' type checks in
source order, then the record that is built. -/
theorem getPBPhoneFromJSONPhone_eq (js : Runtime) (phoneUtil : PhoneNumberUtil)
    (p : CanonicalPhone) :
    getPBPhoneFromJSONPhone js phoneUtil p =
      if p.countryCode = JSVal.undefined then
        .error (Thrown.error errors.MISSING_COUNTRY_CODE)
      else if isNonNumericString js p.countryCode then
        .error (Thrown.error errors.INVALID_COUNTRY_CODE)
      else if phoneUtil.enableAsserts = true ∧ isNumberOrString p.countryCode = false then
        .error Thrown.assertionError
      else if p.nationalNumber = JSVal.undefined then
        .error (Thrown.error errors.MISSING_NATIONAL_NUMBER)
      else if isNonNumericString js p.nationalNumber then
        .error (Thrown.error errors.FORMAT_INVALID)
      else if phoneUtil.enableAsserts = true ∧ isNumberOrString p.nationalNumber = false then
        .error Thrown.assertionError
      else if phoneUtil.enableAsserts = true ∧ isExtensionValue p.extension = false then
        .error Thrown.assertionError
      else .ok
        { countryCode := some (numericCountryCode js p.countryCode),
          nationalNumber := some (match p.nationalNumber with
            | JSVal.string s => JSVal.number (js.Number s)
            | v => v),
          extension := (match p.extension with
            | JSVal.undefined => none
            | JSVal.number n => some (JSVal.string (js.numberToString n))
            | v => some v),
          italianLeadingZero := (match p.nationalNumber with
            | JSVal.string s => some (charAt s 0 == "0" &&
                phoneUtil.isLeadingZeroPossible (numericCountryCode js p.countryCode))
            | _ => none) } := by
  rcases p with ⟨cc, nn, ext⟩
  cases hA : phoneUtil.enableAsserts <;> cases cc <;> cases nn <;> cases ext <;>
    simp [getPBPhoneFromJSONPhone, isNonNumericString, numericCountryCode, PhoneNumber.new,
      PhoneNumber.setCountryCode, PhoneNumber.setNationalNumber, PhoneNumber.setExtension,
      PhoneNumber.setItalianLeadingZero, isNumberOrString, isExtensionValue, hA,
      pure, Except.pure, bind, Except.bind, throw, throwThe, MonadExceptOf.throw]

/-- The function `formatPhoneNumber` in closed form, once the record has converted. -/
theorem formatPhoneNumber_eq (js : Runtime) (phoneUtil : PhoneNumberUtil)
    (p : CanonicalPhone) (options : Option Options) (pb : PhoneNumber)
    (h : getPBPhoneFromJSONPhone js phoneUtil p = .ok pb) :
    formatPhoneNumber js phoneUtil p options =
      if (options.elim JSVal.undefined Options.style) = JSVal.string styles.NATIONAL then
        .ok (phoneUtil.format pb PhoneNumberFormat.NATIONAL)
      else if (options.elim JSVal.undefined Options.style) = JSVal.string styles.INTERNATIONAL then
        .ok (phoneUtil.format pb PhoneNumberFormat.INTERNATIONAL)
      else if (options.elim JSVal.undefined Options.style) = JSVal.string styles.E164 then
        .ok (phoneUtil.format pb PhoneNumberFormat.E164)
      else if (options.elim JSVal.undefined Options.style) = JSVal.string styles.RFC3966 then
        .ok (phoneUtil.format pb PhoneNumberFormat.RFC3966)
      else .error (Thrown.error errors.INVALID_STYLE) := by
  unfold formatPhoneNumber
  rw [h]
  rcases options with _ | o
  · simp [bind, Except.bind, throw, throwThe, MonadExceptOf.throw]
  · simp only [Option.elim, bind, Except.bind, pure, Except.pure, throw, throwThe,
      MonadExceptOf.throw]

theorem formatPhoneNumber_of_error (js : Runtime) (phoneUtil : PhoneNumberUtil)
    (p : CanonicalPhone) (options : Option Options) (e : Thrown)
    (h : getPBPhoneFromJSONPhone js phoneUtil p = .error e) :
    formatPhoneNumber js phoneUtil p options = .error e := by
  unfold formatPhoneNumber
  rw [h]
  rfl

theorem validatePhoneNumber_eq (js : Runtime) (phoneUtil : PhoneNumberUtil)
    (p : CanonicalPhone) (region : Option String) (pb : PhoneNumber)
    (h : getPBPhoneFromJSONPhone js phoneUtil p = .ok pb) :
    validatePhoneNumber js phoneUtil p region =
      if libraryValid phoneUtil pb region then .ok (Returned.bool true)
      else .ok (Returned.error
        (if phoneUtil.isPossibleNumberWithReason pb = ValidationResult.TOO_SHORT then
           errors.TOO_SHORT
         else if phoneUtil.isPossibleNumberWithReason pb = ValidationResult.TOO_LONG then
           errors.TOO_LONG
         else match region with
           | some r => if r ≠ "" then errors.INVALID_FOR_REGION else errors.PARSE_ERROR
           | none => errors.PARSE_ERROR)) := by
  unfold validatePhoneNumber
  rw [h]
  rcases region with _ | r
  · simp only [libraryValid, bind, Except.bind, pure, Except.pure]
    by_cases hv : phoneUtil.isValidNumber pb = true
    · simp [hv]
    · by_cases h1 : phoneUtil.isPossibleNumberWithReason pb = ValidationResult.TOO_SHORT
      · simp [hv, h1]
      · by_cases h2 : phoneUtil.isPossibleNumberWithReason pb = ValidationResult.TOO_LONG
        · simp [hv, h1, h2]
        · simp [hv, h1, h2]
  · simp only [libraryValid, bind, Except.bind, pure, Except.pure]
    by_cases hr : r = ""
    · by_cases hv : phoneUtil.isValidNumber pb = true
      · simp [hv, hr]
      · by_cases h1 : phoneUtil.isPossibleNumberWithReason pb = ValidationResult.TOO_SHORT
        · simp [hv, hr, h1]
        · by_cases h2 : phoneUtil.isPossibleNumberWithReason pb = ValidationResult.TOO_LONG
          · simp [hv, hr, h1, h2]
          · simp [hv, hr, h1, h2]
    · by_cases hv : phoneUtil.isValidNumberForRegion pb r = true
      · simp [hv, hr]
      · by_cases h1 : phoneUtil.isPossibleNumberWithReason pb = ValidationResult.TOO_SHORT
        · simp [hv, hr, h1]
        · by_cases h2 : phoneUtil.isPossibleNumberWithReason pb = ValidationResult.TOO_LONG
          · simp [hv, hr, h1, h2]
          · simp [hv, hr, h1, h2]

/-! ## Claims about the adapter functions -/

/-- C2: when the record converts, `validatePhoneNumber` returns `true` exactly when the
library reports the number valid (for the region when a non-empty region is given, in
general otherwise); when it is not valid the call returns an `Error` value without
throwing; it never returns `false`. -/
theorem validatePhoneNumber_true_iff_valid (js : Runtime) (phoneUtil : PhoneNumberUtil)
    (p : CanonicalPhone) (region : Option String) (pb : PhoneNumber)
    (h : getPBPhoneFromJSONPhone js phoneUtil p = .ok pb) :
    (validatePhoneNumber js phoneUtil p region = .ok (Returned.bool true) ↔
        libraryValid phoneUtil pb region = true) ∧
      (libraryValid phoneUtil pb region = false →
        ∃ code, validatePhoneNumber js phoneUtil p region = .ok (Returned.error code)) ∧
      validatePhoneNumber js phoneUtil p region ≠ .ok (Returned.bool false) := by
  rw [validatePhoneNumber_eq js phoneUtil p region pb h]
  by_cases hv : libraryValid phoneUtil pb region = true
  · simp [hv]
  · simp [hv]

/-- C2 at `samplePhone` with region `'IT'`: the record converts and the call returns
`true`. -/
theorem validatePhoneNumber_true_iff_valid_witness :
    getPBPhoneFromJSONPhone sampleRuntime sampleUtil samplePhone =
        .ok samplePB ∧
      validatePhoneNumber sampleRuntime sampleUtil samplePhone (some "IT") =
        .ok (Returned.bool true) :=
  ⟨rfl, (validatePhoneNumber_true_iff_valid sampleRuntime sampleUtil samplePhone (some "IT")
    samplePB rfl).1.2 rfl⟩

/-- C3, at the failing input with `countryCode: NaN` and `nationalNumber: 1`: whatever the
runtime and the library, the conversion does not throw and returns a record whose country
code is NaN, `formatPhoneNumber` with style `'national'` returns the library's string, and
`validatePhoneNumber` returns a value. -/
theorem getPBPhoneFromJSONPhone_accepts_NaN_number (js : Runtime)
    (phoneUtil : PhoneNumberUtil) :
    getPBPhoneFromJSONPhone js phoneUtil
        { countryCode := JSVal.number JSNumber.nan,
          nationalNumber := JSVal.number (JSNumber.finite 1),
          extension := JSVal.undefined } =
        .ok { countryCode := some (JSVal.number JSNumber.nan),
              nationalNumber := some (JSVal.number (JSNumber.finite 1)),
              extension := none, italianLeadingZero := none } ∧
      formatPhoneNumber js phoneUtil
        { countryCode := JSVal.number JSNumber.nan,
          nationalNumber := JSVal.number (JSNumber.finite 1),
          extension := JSVal.undefined } (some { style := JSVal.string "national" }) =
        .ok (phoneUtil.format
          { countryCode := some (JSVal.number JSNumber.nan),
            nationalNumber := some (JSVal.number (JSNumber.finite 1)),
            extension := none, italianLeadingZero := none } PhoneNumberFormat.NATIONAL) ∧
      ∃ r, validatePhoneNumber js phoneUtil
        { countryCode := JSVal.number JSNumber.nan,
          nationalNumber := JSVal.number (JSNumber.finite 1),
          extension := JSVal.undefined } none = .ok r := by
  have hpb : getPBPhoneFromJSONPhone js phoneUtil
        { countryCode := JSVal.number JSNumber.nan,
          nationalNumber := JSVal.number (JSNumber.finite 1),
          extension := JSVal.undefined } =
        .ok { countryCode := some (JSVal.number JSNumber.nan),
              nationalNumber := some (JSVal.number (JSNumber.finite 1)),
              extension := none, italianLeadingZero := none } := rfl
  refine ⟨hpb, ?_, ?_⟩
  · unfold formatPhoneNumber
    rw [hpb]
    rfl
  · rw [validatePhoneNumber_eq js phoneUtil _ none _ hpb]
    by_cases hv : libraryValid phoneUtil
        { countryCode := some (JSVal.number JSNumber.nan),
          nationalNumber := some (JSVal.number (JSNumber.finite 1)),
          extension := none, italianLeadingZero := none } none = true
    · exact ⟨_, if_pos hv⟩
    · exact ⟨_, if_neg hv⟩

/-- C4 as stated fails at the record with `countryCode: null`, `nationalNumber: 1` and
the style `'national'`, on a library with assertions enabled: none of the five claimed
failures applies, and the call does not return a string but throws the AssertionError of
`setCountryCode`. -/
theorem formatPhoneNumber_failure_precedence_counterexample :
    claimedFormatFailure sampleRuntime nullCountryPhone
        (some { style := JSVal.string "national" }) = none ∧
      formatPhoneNumber sampleRuntime sampleUtil nullCountryPhone
        (some { style := JSVal.string "national" }) = .error Thrown.assertionError ∧
      ¬ ∃ out, formatPhoneNumber sampleRuntime sampleUtil nullCountryPhone
        (some { style := JSVal.string "national" }) = .ok out := by
  have h : formatPhoneNumber sampleRuntime sampleUtil nullCountryPhone
      (some { style := JSVal.string "national" }) = .error Thrown.assertionError := rfl
  refine ⟨rfl, h, ?_⟩
  rintro ⟨out, hout⟩
  rw [h] at hout
  cases hout

/-- C4 as amended: `formatPhoneNumber` throws the first applicable failure of the amended
precedence (country code undefined, country code a non-numeric string, AssertionError for
a country code that is neither a number nor a string, national number undefined, national
number a non-numeric string, AssertionError for a national number that is neither a number
nor a string, AssertionError for an extension that is not absent, a number or a string,
options absent or style not one of the four style values; the AssertionErrors only on a
library with assertions enabled), and returns a string when none applies, `countryCode`
and `nationalNumber` are numbers other than NaN or numeric strings, and `extension` is
absent, a number or a string; the five codes are pairwise different. -/
theorem formatPhoneNumber_failure_precedence_amended (js : Runtime)
    (phoneUtil : PhoneNumberUtil) (p : CanonicalPhone) (options : Option Options) :
    (match amendedFormatOutcome phoneUtil.enableAsserts js p options with
      | Outcome.fails t => formatPhoneNumber js phoneUtil p options = .error t
      | Outcome.succeeds => ∃ out, formatPhoneNumber js phoneUtil p options = .ok out
      | Outcome.unstated => True) ∧
      [errors.MISSING_COUNTRY_CODE, errors.MISSING_NATIONAL_NUMBER,
        errors.INVALID_COUNTRY_CODE, errors.FORMAT_INVALID, errors.INVALID_STYLE].Nodup := by
  refine ⟨?_, by decide⟩
  unfold amendedFormatOutcome
  have hpb := getPBPhoneFromJSONPhone_eq js phoneUtil p
  by_cases h1 : p.countryCode = JSVal.undefined
  · rw [if_pos h1] at hpb ⊢
    exact formatPhoneNumber_of_error js phoneUtil p options _ hpb
  rw [if_neg h1] at hpb ⊢
  by_cases h2 : isNonNumericString js p.countryCode = true
  · rw [if_pos h2] at hpb ⊢
    exact formatPhoneNumber_of_error js phoneUtil p options _ hpb
  rw [if_neg h2] at hpb ⊢
  by_cases h3 : phoneUtil.enableAsserts = true ∧ isNumberOrString p.countryCode = false
  · rw [if_pos h3] at hpb ⊢
    exact formatPhoneNumber_of_error js phoneUtil p options _ hpb
  rw [if_neg h3] at hpb ⊢
  by_cases h4 : p.nationalNumber = JSVal.undefined
  · rw [if_pos h4] at hpb ⊢
    exact formatPhoneNumber_of_error js phoneUtil p options _ hpb
  rw [if_neg h4] at hpb ⊢
  by_cases h5 : isNonNumericString js p.nationalNumber = true
  · rw [if_pos h5] at hpb ⊢
    exact formatPhoneNumber_of_error js phoneUtil p options _ hpb
  rw [if_neg h5] at hpb ⊢
  by_cases h6 : phoneUtil.enableAsserts = true ∧ isNumberOrString p.nationalNumber = false
  · rw [if_pos h6] at hpb ⊢
    exact formatPhoneNumber_of_error js phoneUtil p options _ hpb
  rw [if_neg h6] at hpb ⊢
  by_cases h7 : phoneUtil.enableAsserts = true ∧ isExtensionValue p.extension = false
  · rw [if_pos h7] at hpb ⊢
    exact formatPhoneNumber_of_error js phoneUtil p options _ hpb
  rw [if_neg h7] at hpb ⊢
  rw [formatPhoneNumber_eq js phoneUtil p options _ hpb]
  by_cases hs : (options.elim false fun o => isStyleValue o.style) = false
  · rw [if_pos hs]
    show _ = Except.error (Thrown.error "PHN_OPTIONS_INVALID")
    rcases options with _ | o
    · exact if_neg (by simp) |>.trans (if_neg (by simp) |>.trans (if_neg (by simp) |>.trans
        (if_neg (by simp))))
    · simp only [Option.elim, isStyleValue, decide_eq_false_iff_not, not_or] at hs
      simp only [Option.elim]
      rw [if_neg hs.1, if_neg hs.2.1, if_neg hs.2.2.1, if_neg hs.2.2.2]
      rfl
  · rw [if_neg hs]
    by_cases hn : p.countryCode = JSVal.number JSNumber.nan ∨
        p.nationalNumber = JSVal.number JSNumber.nan
    · rw [if_pos hn]
      trivial
    · rw [if_neg hn]
      by_cases ht : isNumberOrString p.countryCode = false ∨
          isNumberOrString p.nationalNumber = false ∨ isExtensionValue p.extension = false
      · rw [if_pos ht]
        trivial
      rw [if_neg ht]
      show ∃ out, _ = Except.ok out
      rcases options with _ | o
      · exact absurd rfl hs
      · simp only [Option.elim, isStyleValue, Bool.not_eq_false, decide_eq_true_eq] at hs
        simp only [Option.elim]
        split_ifs with a b c d
        · exact ⟨_, rfl⟩
        · exact ⟨_, rfl⟩
        · exact ⟨_, rfl⟩
        · exact ⟨_, rfl⟩
        · exact absurd hs (by simp [a, b, c, d])

/-- C5, at the failing input with `countryCode: 1` and `nationalNumber: 6502530000`: whatever
the runtime and the library, the record converts, and `formatPhoneNumber` throws
`PHN_OPTIONS_INVALID` for the documented style `'E164'` and for the documented style
`'RFC3699'`. -/
theorem formatPhoneNumber_rejects_documented_styles (js : Runtime)
    (phoneUtil : PhoneNumberUtil) :
    getPBPhoneFromJSONPhone js phoneUtil
        { countryCode := JSVal.number (JSNumber.finite 1),
          nationalNumber := JSVal.number (JSNumber.finite 6502530000),
          extension := JSVal.undefined } =
        .ok { countryCode := some (JSVal.number (JSNumber.finite 1)),
              nationalNumber := some (JSVal.number (JSNumber.finite 6502530000)),
              extension := none, italianLeadingZero := none } ∧
      formatPhoneNumber js phoneUtil
        { countryCode := JSVal.number (JSNumber.finite 1),
          nationalNumber := JSVal.number (JSNumber.finite 6502530000),
          extension := JSVal.undefined } (some { style := JSVal.string "E164" }) =
        .error (Thrown.error "PHN_OPTIONS_INVALID") ∧
      formatPhoneNumber js phoneUtil
        { countryCode := JSVal.number (JSNumber.finite 1),
          nationalNumber := JSVal.number (JSNumber.finite 6502530000),
          extension := JSVal.undefined } (some { style := JSVal.string "RFC3699" }) =
        .error (Thrown.error "PHN_OPTIONS_INVALID") := by
  refine ⟨rfl, ?_, ?_⟩ <;> rfl

/-- C6: when the record converts, the produced record holds the numerically converted
country code; for a string national number its leading-zero flag is `true` exactly when
the string starts with `'0'` and the library reports a leading zero possible for that
country code, and its national number is `Number` of the string; for a national number
given as a number the flag is not set. -/
theorem getPBPhoneFromJSONPhone_leading_zero (js : Runtime) (phoneUtil : PhoneNumberUtil)
    (p : CanonicalPhone) (pb : PhoneNumber)
    (h : getPBPhoneFromJSONPhone js phoneUtil p = .ok pb) :
    pb.countryCode = some (numericCountryCode js p.countryCode) ∧
      (∀ s, p.nationalNumber = JSVal.string s →
        (pb.italianLeadingZero = some true ↔
          (s.toList.head? = some '0' ∧
            phoneUtil.isLeadingZeroPossible (numericCountryCode js p.countryCode) = true)) ∧
        pb.nationalNumber = some (JSVal.number (js.Number s))) ∧
      (∀ n, p.nationalNumber = JSVal.number n → pb.italianLeadingZero = none) := by
  rw [getPBPhoneFromJSONPhone_eq] at h
  split_ifs at h
  injection h with h
  subst h
  refine ⟨rfl, ?_, ?_⟩
  · intro s hs
    simp [hs, charAt_zero_eq]
  · intro n hn
    simp [hn]

/-- C6 at `samplePhone`: the record converts, the flag is `true` and the national number
is `Number('061234')`. -/
theorem getPBPhoneFromJSONPhone_leading_zero_witness :
    getPBPhoneFromJSONPhone sampleRuntime sampleUtil samplePhone =
        .ok samplePB ∧
      samplePB.italianLeadingZero = some true ∧
      samplePB.nationalNumber = some (JSVal.number (sampleRuntime.Number "061234")) :=
  ⟨rfl,
    ((getPBPhoneFromJSONPhone_leading_zero sampleRuntime sampleUtil samplePhone samplePB
      rfl).2.1 "061234" rfl).1.2 ⟨rfl, rfl⟩,
    ((getPBPhoneFromJSONPhone_leading_zero sampleRuntime sampleUtil samplePhone samplePB
      rfl).2.1 "061234" rfl).2⟩

/-! ## Proofs: the formatters -/

theorem foldl_range_get? {α β : Type} (g : β → Option α → β) (l : List α) (a : β) :
    (List.range l.length).foldl (fun acc i => g acc (l.get? i)) a =
      l.foldl (fun acc c => g acc (some c)) a := by
  induction l generalizing a with
  | nil => rfl
  | cons c cs ih =>
    rw [List.length_cons, List.range_succ_eq_map, List.foldl_cons, List.foldl_map]
    simpa using ih (g a (some c))

theorem charAt_eq (s : String) (i : Nat) :
    charAt s i = (s.toList.get? i).elim "" String.singleton := by
  unfold charAt
  cases s.toList.get? i <;> rfl

/-- The `for` loop of `formatAsTyped` visits the characters of the string in order. -/
theorem loop_eq_foldl_chars (F : AsYouTypeFormatter) (s : String)
    (start : F.State × Option String) :
    (List.range s.length).foldl
        (fun acc i =>
          ((F.inputDigit acc.1 (charAt s i)).1, some (F.inputDigit acc.1 (charAt s i)).2))
        start =
      s.toList.foldl
        (fun acc c =>
          ((F.inputDigit acc.1 (String.singleton c)).1,
            some (F.inputDigit acc.1 (String.singleton c)).2))
        start := by
  have h := foldl_range_get?
    (fun (acc : F.State × Option String) (oc : Option Char) =>
      ((F.inputDigit acc.1 (oc.elim "" String.singleton)).1,
        some (F.inputDigit acc.1 (oc.elim "" String.singleton)).2)) s.toList start
  simp only [charAt_eq]
  exact h

theorem formatAsTyped_eq_replay (F : AsYouTypeFormatter) (m : Module F) (st : F.State)
    (v : JSVal) (h : m.statelessFormatter = some st) :
    formatAsTyped F m v =
      .ok ((replay F st v).2, { m with statelessFormatter := some (replay F st v).1 }) := by
  unfold formatAsTyped
  rw [h]
  cases v with
  | string s =>
    by_cases hs : s = ""
    · subst hs
      simp [replay, pure, Except.pure]
    · simp only [ne_eq, hs, not_false_eq_true, if_true, loop_eq_foldl_chars, replay]
      rfl
  | _ => rfl

theorem feedDigits_eq_foldl (F : AsYouTypeFormatter) (cs : List Char) (m : Module F)
    (st : F.State) (last : Option String) (h : m.formatter = some st) :
    feedDigits F m cs last =
      .ok ((cs.foldl (keystroke F) (st, last)).2,
        { m with formatter := some (cs.foldl (keystroke F) (st, last)).1 }) := by
  induction cs generalizing m st last with
  | nil =>
    rcases m with ⟨a, b, f, g⟩
    simp only at h
    subst h
    rfl
  | cons c cs ih =>
    have hstep : asYouType.inputDigit F m (String.singleton c) =
        .ok ((F.inputDigit st (String.singleton c)).2,
          { m with formatter := some (F.inputDigit st (String.singleton c)).1 }) := by
      unfold asYouType.inputDigit
      rw [h]
      rfl
    unfold feedDigits
    rw [hstep]
    simp only
    rw [ih _ (F.inputDigit st (String.singleton c)).1 _ rfl]
    rfl

theorem reach_foldl_keystroke (F : AsYouTypeFormatter) (r : String) (cs : List Char)
    (a : F.State × Option String) (h : Reach F r a.1) :
    Reach F r (cs.foldl (keystroke F) a).1 := by
  induction cs generalizing a with
  | nil => exact h
  | cons c cs ih => exact ih _ (Reach.inputDigit _ h)

theorem reach_replay (F : AsYouTypeFormatter) (r : String) (st : F.State) (v : JSVal)
    (h : Reach F r st) : Reach F r (replay F st v).1 := by
  cases v with
  | string s => exact reach_foldl_keystroke F r _ _ (Reach.clear h)
  | _ => exact Reach.clear h

theorem foldl_keystroke_some (F : AsYouTypeFormatter) (cs : List Char)
    (a : F.State × Option String) (h : cs ≠ [] ∨ a.2.isSome = true) :
    ∃ out, (cs.foldl (keystroke F) a).2 = some out := by
  induction cs generalizing a with
  | nil =>
    rcases h with h | h
    · exact absurd rfl h
    · exact Option.isSome_iff_exists.mp h
  | cons c cs ih => exact ih _ (Or.inr rfl)

theorem ready_setRegion (F : AsYouTypeFormatter) (m m1 : Module F) (r : String)
    (h : setRegion F m r = .ok m1) : Ready F m1 := by
  unfold setRegion at h
  rcases hc : m.allRegionCodes with _ | codes
  · rw [hc] at h
    cases h
  · rw [hc] at h
    simp only at h
    split_ifs at h
    cases h
    exact ⟨r, _, _, rfl, rfl, Reach.fresh, Reach.fresh⟩

theorem ready_apply (F : AsYouTypeFormatter) (m : Module F) (c : Call) (h : Ready F m) :
    Ready F (Call.apply F m c) := by
  obtain ⟨r, st1, st2, h1, h2, r1, r2⟩ := h
  cases c with
  | setRegion r0 =>
    cases hs : setRegion F m r0 with
    | ok m1 =>
      simp only [Call.apply, hs]
      exact ready_setRegion F m m1 r0 hs
    | error e =>
      simp only [Call.apply, hs]
      exact ⟨r, st1, st2, h1, h2, r1, r2⟩
  | clear =>
    have hc : asYouType.clear F m = .ok { m with formatter := some (F.clear st1) } := by
      unfold asYouType.clear
      rw [h1]
      rfl
    simp only [Call.apply, hc]
    exact ⟨r, _, st2, rfl, h2, Reach.clear r1, r2⟩
  | inputDigit d =>
    have hc : asYouType.inputDigit F m d =
        .ok ((F.inputDigit st1 d).2, { m with formatter := some (F.inputDigit st1 d).1 }) := by
      unfold asYouType.inputDigit
      rw [h1]
      rfl
    simp only [Call.apply, hc]
    exact ⟨r, _, st2, rfl, h2, Reach.inputDigit d r1, r2⟩
  | formatAsTyped v =>
    simp only [Call.apply, formatAsTyped_eq_replay F m st2 v h2]
    exact ⟨r, st1, _, h1, rfl, r1, reach_replay F r st2 v r2⟩

theorem ready_runCalls (F : AsYouTypeFormatter) (calls : List Call) (m : Module F)
    (h : Ready F m) : Ready F (runCalls F m calls) := by
  induction calls generalizing m with
  | nil => exact h
  | cons c cs ih => exact ih _ (ready_apply F m c h)

theorem sampleFormatter_clearRestores : ClearRestores sampleFormatter := by
  intro r st h
  have hr : st.1 = r := by
    induction h with
    | fresh => rfl
    | clear _ ih => exact ih
    | inputDigit d _ ih => exact ih
  subst hr
  rfl

theorem toList_ne_nil (s : String) (h : s ≠ "") : s.toList ≠ [] := by
  rcases s with ⟨l⟩
  intro hl
  apply h
  simp only [String.toList] at hl
  subst hl
  rfl

theorem asYouType_clear_eq (F : AsYouTypeFormatter) (m : Module F) (st : F.State)
    (h : m.formatter = some st) :
    asYouType.clear F m = .ok { m with formatter := some (F.clear st) } := by
  unfold asYouType.clear
  rw [h]
  rfl

theorem asYouType_inputDigit_eq (F : AsYouTypeFormatter) (m : Module F) (st : F.State)
    (d : String) (h : m.formatter = some st) :
    asYouType.inputDigit F m d =
      .ok ((F.inputDigit st d).2, { m with formatter := some (F.inputDigit st d).1 }) := by
  unfold asYouType.inputDigit
  rw [h]
  rfl

theorem typeIncrementally_eq (F : AsYouTypeFormatter) (m : Module F) (st : F.State)
    (s : String) (h : m.formatter = some st) :
    typeIncrementally F m s =
      .ok ((s.toList.foldl (keystroke F) (F.clear st, none)).2,
        { m with formatter := some (s.toList.foldl (keystroke F) (F.clear st, none)).1 }) := by
  unfold typeIncrementally
  rw [asYouType_clear_eq F m st h]
  simp only
  rw [feedDigits_eq_foldl F s.toList _ (F.clear st) none rfl]

/-! ## Claims about the formatters -/

/-- C1: for a formatter whose `clear()` restores the freshly-constructed state, after a
successful `setRegion` and any further calls of the exported formatter functions,
`formatAsTyped(s)` on a non-empty string `s` returns the string that the last
`asYouType.inputDigit` call returns when `asYouType.clear()` is called and the characters
of `s` are fed to `asYouType.inputDigit` one at a time. -/
theorem formatAsTyped_eq_incremental (F : AsYouTypeFormatter) (hF : ClearRestores F)
    (m0 m1 : Module F) (r : String) (hset : setRegion F m0 r = .ok m1) (calls : List Call)
    (s : String) (hs : s ≠ "") :
    ∃ out ma mb,
      formatAsTyped F (runCalls F m1 calls) (JSVal.string s) = .ok (some out, ma) ∧
        typeIncrementally F (runCalls F m1 calls) s = .ok (some out, mb) := by
  obtain ⟨r1, st1, st2, h1, h2, hr1, hr2⟩ :=
    ready_runCalls F calls m1 (ready_setRegion F m0 m1 r hset)
  obtain ⟨out, hout⟩ := foldl_keystroke_some F s.toList (F.construct r1, none)
    (Or.inl (toList_ne_nil s hs))
  have hA := formatAsTyped_eq_replay F _ st2 (JSVal.string s) h2
  have hB := typeIncrementally_eq F _ st1 s h1
  have hrep : (replay F st2 (JSVal.string s)).2 = some out := by
    simp only [replay, hF r1 st2 hr2, hout]
  rw [hrep] at hA
  rw [hF r1 st1 hr1, hout] at hB
  exact ⟨out, _, _, hA, hB⟩

/-- C1 on `sampleFormatter`: after `setRegion('US')` and the calls of `sampleCalls`, the
stateless replay of `'16'` and the incremental feeding of `'1'`, `'6'` return the same
string. -/
theorem formatAsTyped_eq_incremental_witness :
    ClearRestores sampleFormatter ∧
      setRegion sampleFormatter sampleModule "US" = .ok sampleModuleUS ∧ "16" ≠ "" ∧
      ∃ out ma mb,
        formatAsTyped sampleFormatter (runCalls sampleFormatter sampleModuleUS sampleCalls)
            (JSVal.string "16") = .ok (some out, ma) ∧
          typeIncrementally sampleFormatter
            (runCalls sampleFormatter sampleModuleUS sampleCalls) "16" = .ok (some out, mb) :=
  ⟨sampleFormatter_clearRestores, rfl, by decide,
    formatAsTyped_eq_incremental sampleFormatter sampleFormatter_clearRestores sampleModule
      sampleModuleUS "US" rfl sampleCalls "16" (by decide)⟩

/-- C7: after a successful `setRegion` and any further calls of the exported formatter
functions, `formatAsTyped(s)` leaves the stateful formatter's state as it was, so that a
following `asYouType.inputDigit(c)` returns what it returns without the `formatAsTyped`
call; and `asYouType.clear()` or `asYouType.inputDigit(c)` leaves the result of a
following `formatAsTyped(s)` as it was. -/
theorem formatters_share_no_state (F : AsYouTypeFormatter) (m0 m1 : Module F) (r : String)
    (hset : setRegion F m0 r = .ok m1) (calls : List Call) (s : String) (c : Char) :
    (∃ out m2, formatAsTyped F (runCalls F m1 calls) (JSVal.string s) = .ok (out, m2) ∧
        m2.formatter = (runCalls F m1 calls).formatter ∧
        ∃ v ma mb, asYouType.inputDigit F m2 (String.singleton c) = .ok (v, ma) ∧
          asYouType.inputDigit F (runCalls F m1 calls) (String.singleton c) = .ok (v, mb)) ∧
      (∃ out ma m3 mb,
        formatAsTyped F (runCalls F m1 calls) (JSVal.string s) = .ok (out, ma) ∧
          asYouType.clear F (runCalls F m1 calls) = .ok m3 ∧
          formatAsTyped F m3 (JSVal.string s) = .ok (out, mb)) ∧
      (∃ out ma v m4 mb,
        formatAsTyped F (runCalls F m1 calls) (JSVal.string s) = .ok (out, ma) ∧
          asYouType.inputDigit F (runCalls F m1 calls) (String.singleton c) = .ok (v, m4) ∧
          formatAsTyped F m4 (JSVal.string s) = .ok (out, mb)) := by
  obtain ⟨r1, st1, st2, h1, h2, _, _⟩ :=
    ready_runCalls F calls m1 (ready_setRegion F m0 m1 r hset)
  refine ⟨⟨_, _, formatAsTyped_eq_replay F _ st2 _ h2, rfl, _, _, _,
      asYouType_inputDigit_eq F _ st1 _ h1, asYouType_inputDigit_eq F _ st1 _ h1⟩,
    ⟨_, _, _, _, formatAsTyped_eq_replay F _ st2 _ h2, asYouType_clear_eq F _ st1 h1,
      formatAsTyped_eq_replay F _ st2 _ h2⟩,
    ⟨_, _, _, _, _, formatAsTyped_eq_replay F _ st2 _ h2,
      asYouType_inputDigit_eq F _ st1 _ h1, formatAsTyped_eq_replay F _ st2 _ h2⟩⟩

/-- C7 on `sampleFormatter`, after `setRegion('US')` and the calls of `sampleCalls`, with
the string `'16'` and the character `'5'`. -/
theorem formatters_share_no_state_witness :
    setRegion sampleFormatter sampleModule "US" = .ok sampleModuleUS ∧
      ∃ out ma v m4 mb,
        formatAsTyped sampleFormatter (runCalls sampleFormatter sampleModuleUS sampleCalls)
            (JSVal.string "16") = .ok (out, ma) ∧
          asYouType.inputDigit sampleFormatter
            (runCalls sampleFormatter sampleModuleUS sampleCalls) (String.singleton '5') =
            .ok (v, m4) ∧
          formatAsTyped sampleFormatter m4 (JSVal.string "16") = .ok (out, mb) :=
  ⟨rfl, (formatters_share_no_state sampleFormatter sampleModule sampleModuleUS "US" rfl
    sampleCalls "16" '5').2.2⟩

end FullstackPhone
